import Mathlib

/-!
Shallow embedding of `src/create_icon.py`, a one-shot generator that draws
a 32×32 RGBA icon (a blue circle with a white "R" glyph built from four
rectangles) and writes it to `icons/icon.ico` and `icons/icon.png`.

The pure drawing part is modelled as a pixel function built by folding a
list of draw operations over a transparent canvas.  The effectful part
(directory creation, file writes, console prints, the `__main__`
try/except) is modelled as a deterministic state-passing function from an
environment of injected failures to a world (filesystem + event trace)
together with the exception, if any, that escapes the program.
-/

namespace CreateIcon

/-- An RGBA pixel value: red, green, blue and alpha channels. -/
structure RGBA where
  r : Nat
  g : Nat
  b : Nat
  a : Nat
deriving DecidableEq, Repr

/-- The fully transparent pixel `(0, 0, 0, 0)` used to initialise the canvas. -/
def transparent : RGBA := ⟨0, 0, 0, 0⟩

/-- The circle fill colour `(52, 152, 219, 255)` from the source. -/
def blue : RGBA := ⟨52, 152, 219, 255⟩

/-- The glyph fill colour `(255, 255, 255, 255)` from the source. -/
def white : RGBA := ⟨255, 255, 255, 255⟩

/-- An in-memory image: mode, dimensions and a pixel map.  Mirrors
`Image.new('RGBA', (size, size), (0, 0, 0, 0))` followed by in-place
mutation through draw calls. -/
structure Image where
  mode : String
  width : Nat
  height : Nat
  px : Nat → Nat → RGBA

/-- Modelled from the spec: `Image.new(mode, (w, h), c)` of the external
drawing library allocates a `w × h` canvas with every pixel set to `c`. -/
def Image.new (mode : String) (w h : Nat) (c : RGBA) : Image :=
  ⟨mode, w, h, fun _ _ => c⟩

/-- The two primitive draw calls the source issues: a filled ellipse and a
filled rectangle, each with an inclusive bounding box and a fill colour. -/
inductive DrawOp where
  | ellipse (x0 y0 x1 y1 : Int) (fill : RGBA)
  | rectangle (x0 y0 x1 y1 : Int) (fill : RGBA)
deriving DecidableEq, Repr

/-- Modelled from the spec: the external library's filled rectangle covers
exactly the pixels of the inclusive bounding box `[x0, y0]`–`[x1, y1]`. -/
def inRect (x0 y0 x1 y1 x y : Int) : Bool :=
  x0 ≤ x && x ≤ x1 && y0 ≤ y && y ≤ y1

/-- Modelled from the spec: the external library's filled ellipse covers the
pixels of the ellipse inscribed in the inclusive bounding box
`[x0, y0]`–`[x1, y1]`, boundary included.  With doubled centre coordinates
`cx2 = x0 + x1`, `cy2 = y0 + y1` and doubled radii `rx2 = x1 - x0`,
`ry2 = y1 - y0`, pixel `(x, y)` is covered when
`ry2² · (2x - cx2)² + rx2² · (2y - cy2)² ≤ rx2² · ry2²`. -/
def inEllipse (x0 y0 x1 y1 x y : Int) : Bool :=
  let cx2 := x0 + x1
  let cy2 := y0 + y1
  let rx2 := x1 - x0
  let ry2 := y1 - y0
  let dx := 2 * x - cx2
  let dy := 2 * y - cy2
  ry2 * ry2 * (dx * dx) + rx2 * rx2 * (dy * dy) ≤ rx2 * rx2 * (ry2 * ry2)

/-- Whether a draw operation covers the pixel at `(x, y)`. -/
def covers (op : DrawOp) (x y : Nat) : Bool :=
  match op with
  | .ellipse x0 y0 x1 y1 _ => inEllipse x0 y0 x1 y1 (x : Int) (y : Int)
  | .rectangle x0 y0 x1 y1 _ => inRect x0 y0 x1 y1 (x : Int) (y : Int)

/-- The fill colour of a draw operation. -/
def opFill (op : DrawOp) : RGBA :=
  match op with
  | .ellipse _ _ _ _ c => c
  | .rectangle _ _ _ _ c => c

/-- Apply one draw operation to an image: every covered pixel is set to the
operation's fill colour, every other pixel is kept. -/
def applyOp (img : Image) (op : DrawOp) : Image :=
  { img with px := fun x y => if covers op x y then opFill op else img.px x y }

/-- Apply a list of draw operations in order. -/
def drawImage (img : Image) (ops : List DrawOp) : Image :=
  ops.foldl applyOp img

/-- The icon edge length: `size = 32` in the source. -/
def size : Nat := 32

/-- The freshly allocated canvas:
`Image.new('RGBA', (size, size), (0, 0, 0, 0))`. -/
def blankIcon : Image := Image.new "RGBA" size size transparent

/-- The five draw calls of `create_simple_icon`, in source order:
`draw.ellipse([2, 2, size-2, size-2], fill=(52, 152, 219, 255))`, then
`draw.rectangle([8, 8, 12, 24], ...)`, `draw.rectangle([8, 8, 20, 12], ...)`,
`draw.rectangle([8, 14, 18, 18], ...)`, `draw.rectangle([16, 18, 20, 24], ...)`,
each rectangle filled `(255, 255, 255, 255)`. -/
def drawOps : List DrawOp :=
  [ .ellipse 2 2 (size - 2) (size - 2) blue
  , .rectangle 8 8 12 24 white
  , .rectangle 8 8 20 12 white
  , .rectangle 8 14 18 18 white
  , .rectangle 16 18 20 24 white ]

/-- The canvas after all draw calls of `create_simple_icon` have run. -/
def image : Image := drawImage blankIcon drawOps

/-! ### Effect model

`create_simple_icon` also creates a directory, writes two files and prints
notices; the `__main__` block wraps it in `try`/`except`.  An `Env` injects
the failures the environment can cause (Pillow missing, `os.makedirs` or
either `image.save` raising); the run produces a `World` (filesystem plus
ordered event trace) and the exception, if any, that escapes the program.
-/

/-- The symbolic content of a written file: the format, the canvas it was
encoded from, and (for the icon container) the requested frame sizes. -/
inductive FileData where
  | icoFile (img : Image) (sizes : List (Nat × Nat))
  | pngFile (img : Image)

/-- A filesystem: the set of existing directories and the written files
(path ↦ content, later writes overwriting earlier ones). -/
structure FS where
  dirs : List String
  files : List (String × FileData)

/-- The empty filesystem. -/
def emptyFS : FS := ⟨[], []⟩

/-- Split a character list on a separator character. -/
def splitChars (sep : Char) : List Char → List (List Char)
  | [] => [[]]
  | c :: cs =>
    if c = sep then [] :: splitChars sep cs
    else
      match splitChars sep cs with
      | [] => [[c]]
      | p :: ps => (c :: p) :: ps

/-- The `/`-separated components of a path. -/
def pathComponents (s : String) : List String :=
  (splitChars '/' s.toList).map (fun cs => String.mk cs)

/-- The ancestor paths of a `/`-separated path, shortest first:
`ancestors "a/b"` is `["a", "a/b"]`. -/
def ancestors (path : String) : List String :=
  ((pathComponents path).foldl
    (fun (acc : List String × String) c =>
      let p := if acc.2 = "" then c else acc.2 ++ "/" ++ c
      (acc.1 ++ [p], p))
    ([], "")).1

/-- Modelled from the spec: `os.makedirs(path, exist_ok=True)` creates the
directory and any missing parents, and is a no-op (not a failure) when the
directory already exists. -/
def FS.makedirs (fs : FS) (path : String) : FS :=
  { fs with
    dirs := fs.dirs ++ (ancestors path).filter (fun p => decide (p ∉ fs.dirs)) }

/-- Write a file, overwriting any previous content at the same path. -/
def FS.writeFile (fs : FS) (path : String) (d : FileData) : FS :=
  { fs with files := (path, d) :: fs.files.filter (fun e => e.1 ≠ path) }

/-- The failures the environment can inject into one run: whether the
`from PIL import ...` at module level succeeds, and for each of
`os.makedirs` and the two `image.save` calls, the error message of the
exception it raises (`none` = the call succeeds). -/
structure Env where
  pillowAvailable : Bool
  makedirsError : Option String
  saveIcoError : Option String
  savePngError : Option String

/-- The observable events of a run, in order: directory creation, file
writes and console prints. -/
inductive Ev where
  | makedirs (path : String) (existOk : Bool)
  | save (path : String) (data : FileData)
  | print (msg : String)

/-- The world state of a run: the filesystem and the ordered event trace. -/
structure World where
  fs : FS
  trace : List Ev

/-- The exceptions the script distinguishes: `ImportError` and any other
exception, carrying its textual description `str(e)`. -/
inductive Exc where
  | importError
  | other (msg : String)

/-- The body of `create_simple_icon()`: draw the icon, ensure `icons/`
exists, save the ICO (one 32×32 frame) and print a success notice, then
save the PNG and print a success notice.  Any injected failure raises at
its call site, leaving the effects performed so far in place. -/
def create_simple_icon (env : Env) (w : World) : World × Option Exc :=
  match env.makedirsError with
  | some msg => (w, some (.other msg))
  | none =>
    let w : World := ⟨w.fs.makedirs "icons", w.trace ++ [.makedirs "icons" true]⟩
    match env.saveIcoError with
    | some msg => (w, some (.other msg))
    | none =>
      let d : FileData := .icoFile image [(32, 32)]
      let w : World := ⟨w.fs.writeFile "icons/icon.ico" d,
        w.trace ++ [.save "icons/icon.ico" d, .print "✅ 创建了 icons/icon.ico"]⟩
      match env.savePngError with
      | some msg => (w, some (.other msg))
      | none =>
        let d : FileData := .pngFile image
        let w : World := ⟨w.fs.writeFile "icons/icon.png" d,
          w.trace ++ [.save "icons/icon.png" d, .print "✅ 创建了 icons/icon.png"]⟩
        (w, none)

/-- Running the script: the module-level `from PIL import Image, ImageDraw`
executes first, before the `if __name__ == "__main__"` block, so when
Pillow is unavailable the `ImportError` is raised outside the `try` and
escapes unhandled.  Otherwise the `try` block runs `create_simple_icon()`;
an `ImportError` from it would print the install-remedy notice, and any
other exception prints the generic failure notice with `str(e)`. -/
def runScript (env : Env) (fs0 : FS) : World × Option Exc :=
  if env.pillowAvailable then
    match create_simple_icon env ⟨fs0, []⟩ with
    | (w, none) => (w, none)
    | (w, some .importError) =>
        (⟨w.fs, w.trace ++ [.print "❌ 需要安装 Pillow: pip install Pillow"]⟩, none)
    | (w, some (.other msg)) =>
        (⟨w.fs, w.trace ++ [.print ("❌ 创建图标失败: " ++ msg)]⟩, none)
  else
    (⟨fs0, []⟩, some .importError)

/-- An environment in which every external call succeeds. -/
def allSuccess (env : Env) : Prop :=
  env.pillowAvailable = true ∧ env.makedirsError = none ∧
    env.saveIcoError = none ∧ env.savePngError = none

/-- The message of the first failing call of `create_simple_icon`, in the
order the calls occur: `os.makedirs`, the ICO save, then the PNG save. -/
def firstFailure (env : Env) : Option String :=
  match env.makedirsError with
  | some m => some m
  | none =>
    match env.saveIcoError with
    | some m => some m
    | none => env.savePngError

/-- The all-success environment used as a concrete instance. -/
def okEnv : Env := ⟨true, none, none, none⟩

/-- An environment in which only the PNG save fails, raising an exception
whose textual description is `msg`. -/
def pngFailEnv (msg : String) : Env := ⟨true, none, none, some msg⟩

/-- A filesystem in which the `icons` directory already exists. -/
def fsWithIcons : FS := ⟨["icons"], []⟩

/-! ### Helper lemmas about the drawing semantics -/

/-- A draw operation sets every pixel it covers to its fill colour. -/
theorem applyOp_px_of_covers (img : Image) (op : DrawOp) (x y : Nat)
    (h : covers op x y = true) : (applyOp img op).px x y = opFill op := by
  simp [applyOp, h]

/-- A draw operation leaves every pixel it does not cover unchanged. -/
theorem applyOp_px_of_not_covers (img : Image) (op : DrawOp) (x y : Nat)
    (h : covers op x y = false) : (applyOp img op).px x y = img.px x y := by
  simp [applyOp, h]

/-- A pixel covered by none of a list of draw operations is unchanged by
drawing all of them. -/
theorem drawImage_px_of_untouched (img : Image) (ops : List DrawOp) (x y : Nat)
    (h : ∀ o ∈ ops, covers o x y = false) :
    (drawImage img ops).px x y = img.px x y := by
  induction ops generalizing img with
  | nil => rfl
  | cons o os ih =>
    have h1 : covers o x y = false := h o (List.mem_cons_self o os)
    have h2 : ∀ o' ∈ os, covers o' x y = false := fun o' ho' => h o' (List.mem_cons_of_mem o ho')
    calc (drawImage img (o :: os)).px x y
        = (drawImage (applyOp img o) os).px x y := rfl
      _ = (applyOp img o).px x y := ih (applyOp img o) h2
      _ = img.px x y := applyOp_px_of_not_covers img o x y h1

/-! ### Claim theorems -/

/-- C2: after all drawing operations of `create_simple_icon`, the canvas
pixel at `(0, 0)` is fully transparent, the pixel at `(4, 16)` equals the
circle fill colour `(52, 152, 219, 255)`, and the pixel at `(16, 16)` —
which lies inside the circle — equals opaque white `(255, 255, 255, 255)`
because the glyph rectangle drawn after the circle occludes it. -/
theorem pixel_values :
    image.px 0 0 = ⟨0, 0, 0, 0⟩ ∧
    image.px 4 16 = ⟨52, 152, 219, 255⟩ ∧
    covers (.ellipse 2 2 30 30 blue) 16 16 = true ∧
    image.px 16 16 = ⟨255, 255, 255, 255⟩ := by
  decide

/-- C3: `create_simple_icon` allocates a 32×32 RGBA canvas in which every
pixel is initially fully transparent, and its first drawing operation is
the filled ellipse inscribed in the bounding box `[2, 2]`–`[30, 30]` with
fill colour `(52, 152, 219, 255)`: after that first operation alone, every
pixel inside the ellipse is that colour and every other pixel is still
transparent. -/
theorem canvas_init_and_first_op :
    image.width = 32 ∧ image.height = 32 ∧ image.mode = "RGBA" ∧
    (∀ x y : Nat, blankIcon.px x y = ⟨0, 0, 0, 0⟩) ∧
    drawOps.head? = some (.ellipse 2 2 30 30 ⟨52, 152, 219, 255⟩) ∧
    (∀ x y : Nat, (drawImage blankIcon (drawOps.take 1)).px x y =
      if covers (.ellipse 2 2 30 30 blue) x y then blue else transparent) := by
  refine ⟨rfl, rfl, rfl, fun x y => rfl, rfl, fun x y => rfl⟩

/-- Witness for C3: the canvas-initialisation and first-operation facts
instantiated at the pixel `(3, 9)`. -/
theorem canvas_init_and_first_op_witness :
    blankIcon.px 3 9 = ⟨0, 0, 0, 0⟩ ∧
    (drawImage blankIcon (drawOps.take 1)).px 3 9 =
      (if covers (.ellipse 2 2 30 30 blue) 3 9 then blue else transparent) :=
  ⟨canvas_init_and_first_op.2.2.2.1 3 9,
   canvas_init_and_first_op.2.2.2.2.2 3 9⟩

/-- C4: after the ellipse, `create_simple_icon` draws exactly the four
rectangles `[8,8]`–`[12,24]`, `[8,8]`–`[20,12]`, `[8,14]`–`[18,18]` and
`[16,18]`–`[20,24]`, in that order, all filled opaque white; and whenever a
pixel is covered by a draw operation and by no later operation, the final
canvas holds that operation's fill colour (later draws win). -/
theorem glyph_rects_and_later_draw_wins :
    drawOps.drop 1 =
      [.rectangle 8 8 12 24 ⟨255, 255, 255, 255⟩,
       .rectangle 8 8 20 12 ⟨255, 255, 255, 255⟩,
       .rectangle 8 14 18 18 ⟨255, 255, 255, 255⟩,
       .rectangle 16 18 20 24 ⟨255, 255, 255, 255⟩] ∧
    ∀ (pre rest : List DrawOp) (op : DrawOp) (x y : Nat),
      covers op x y = true → (∀ o ∈ rest, covers o x y = false) →
      (drawImage blankIcon (pre ++ op :: rest)).px x y = opFill op := by
  refine ⟨rfl, fun pre rest op x y hc hrest => ?_⟩
  calc (drawImage blankIcon (pre ++ op :: rest)).px x y
      = (drawImage (applyOp (drawImage blankIcon pre) op) rest).px x y := by
        simp [drawImage, List.foldl_append]
    _ = (applyOp (drawImage blankIcon pre) op).px x y :=
        drawImage_px_of_untouched _ rest x y hrest
    _ = opFill op := applyOp_px_of_covers _ op x y hc

/-- Witness for C4: the occlusion part applied at the pixel `(10, 10)`,
which the second rectangle covers and no later operation covers. -/
theorem glyph_rects_and_later_draw_wins_witness :
    covers (.rectangle 8 8 20 12 white) 10 10 = true ∧
    (∀ o ∈ [DrawOp.rectangle 8 14 18 18 white, DrawOp.rectangle 16 18 20 24 white],
      covers o 10 10 = false) ∧
    (drawImage blankIcon
      ([.ellipse 2 2 30 30 blue, .rectangle 8 8 12 24 white] ++
        DrawOp.rectangle 8 8 20 12 white ::
          [.rectangle 8 14 18 18 white, .rectangle 16 18 20 24 white])).px 10 10 =
      opFill (.rectangle 8 8 20 12 white) :=
  ⟨by decide, by decide,
    glyph_rects_and_later_draw_wins.2
      [.ellipse 2 2 30 30 blue, .rectangle 8 8 12 24 white]
      [.rectangle 8 14 18 18 white, .rectangle 16 18 20 24 white]
      (.rectangle 8 8 20 12 white) 10 10 (by decide) (by decide)⟩

/-- C10: in the final canvas every pixel's alpha channel is either 0 (the
untouched transparent background) or 255 (covered by the opaque ellipse or
an opaque rectangle); no pixel is partially transparent. -/
theorem alpha_bilevel :
    ∀ x : Nat, x < 32 → ∀ y : Nat, y < 32 →
      (image.px x y).a = 0 ∨ (image.px x y).a = 255 := by
  decide

/-- Witness for C10: the alpha invariant applied at the pixel `(5, 7)`. -/
theorem alpha_bilevel_witness :
    (5 : Nat) < 32 ∧ (7 : Nat) < 32 ∧
      ((image.px 5 7).a = 0 ∨ (image.px 5 7).a = 255) :=
  ⟨by decide, by decide, alpha_bilevel 5 (by decide) 7 (by decide)⟩

/-- C1: when Pillow is unavailable the run does abort before any drawing
and writes no files, but the `ImportError` is raised by the module-level
`from PIL import ...` before the `try` block is reached, so it escapes the
program unhandled and the missing-dependency notice of the (unreachable)
`except ImportError` handler is never printed: the trace is empty. -/
theorem import_error_escapes_without_notice :
    (runScript ⟨false, none, none, none⟩ emptyFS).2 = some .importError ∧
    (runScript ⟨false, none, none, none⟩ emptyFS).1.trace = [] ∧
    (runScript ⟨false, none, none, none⟩ emptyFS).1.fs.files = [] :=
  ⟨rfl, rfl, rfl⟩

/-- C5: on a successful run the first event is
`os.makedirs('icons', exist_ok=True)`, issued before any file write, after
which the `icons` directory exists; and when it already existed the call is
a no-op that does not fail (the run still succeeds and the directory list
is unchanged). -/
theorem icons_dir_ensured (env : Env) (fs0 : FS) (h : allSuccess env) :
    (runScript env fs0).2 = none ∧
    "icons" ∈ (runScript env fs0).1.fs.dirs ∧
    ("icons" ∈ fs0.dirs → (runScript env fs0).1.fs.dirs = fs0.dirs) ∧
    (runScript env fs0).1.trace.head? = some (.makedirs "icons" true) := by
  obtain ⟨pa, me, ie, pe⟩ := env
  obtain ⟨h1, h2, h3, h4⟩ := h
  simp only at h1 h2 h3 h4
  subst h1 h2 h3 h4
  have ha : ancestors "icons" = ["icons"] := by decide
  refine ⟨rfl, ?_, ?_, rfl⟩
  · by_cases hm : "icons" ∈ fs0.dirs
    · exact List.mem_append_left _ hm
    · refine List.mem_append_right _ ?_
      show "icons" ∈ (ancestors "icons").filter (fun p => decide (p ∉ fs0.dirs))
      rw [ha]
      simp [hm]
  · intro hm
    show fs0.dirs ++ (ancestors "icons").filter (fun p => decide (p ∉ fs0.dirs)) = fs0.dirs
    rw [ha]
    simp [hm]

/-- Witness for C5: the theorem applied to the all-success environment and
a filesystem in which `icons` already exists. -/
theorem icons_dir_ensured_witness :
    (runScript okEnv fsWithIcons).2 = none ∧
    "icons" ∈ (runScript okEnv fsWithIcons).1.fs.dirs ∧
    ("icons" ∈ fsWithIcons.dirs → (runScript okEnv fsWithIcons).1.fs.dirs = fsWithIcons.dirs) ∧
    (runScript okEnv fsWithIcons).1.trace.head? = some (.makedirs "icons" true) :=
  icons_dir_ensured okEnv fsWithIcons ⟨rfl, rfl, rfl, rfl⟩

/-- C6: the generator consults no inputs: any two successful runs, even
from different initial filesystems, store identical content at
`icons/icon.ico` and at `icons/icon.png`, so with a deterministic encoder
the written files are byte-for-byte identical. -/
theorem deterministic_outputs (e1 e2 : Env) (fs0 fs1 : FS)
    (h1 : allSuccess e1) (h2 : allSuccess e2) :
    ((runScript e1 fs0).1.fs.files.lookup "icons/icon.ico"
      = (runScript e2 fs1).1.fs.files.lookup "icons/icon.ico") ∧
    ((runScript e1 fs0).1.fs.files.lookup "icons/icon.png"
      = (runScript e2 fs1).1.fs.files.lookup "icons/icon.png") := by
  obtain ⟨pa1, me1, ie1, pe1⟩ := e1
  obtain ⟨pa2, me2, ie2, pe2⟩ := e2
  obtain ⟨ha1, hb1, hc1, hd1⟩ := h1
  obtain ⟨ha2, hb2, hc2, hd2⟩ := h2
  simp only at ha1 hb1 hc1 hd1 ha2 hb2 hc2 hd2
  subst ha1 hb1 hc1 hd1 ha2 hb2 hc2 hd2
  exact ⟨rfl, rfl⟩

/-- Witness for C6: the theorem applied to two all-success runs, one from
the empty filesystem and one from a filesystem that already has `icons`. -/
theorem deterministic_outputs_witness :
    ((runScript okEnv emptyFS).1.fs.files.lookup "icons/icon.ico"
      = (runScript okEnv fsWithIcons).1.fs.files.lookup "icons/icon.ico") ∧
    ((runScript okEnv emptyFS).1.fs.files.lookup "icons/icon.png"
      = (runScript okEnv fsWithIcons).1.fs.files.lookup "icons/icon.png") :=
  deterministic_outputs okEnv okEnv emptyFS fsWithIcons ⟨rfl, rfl, rfl, rfl⟩
    ⟨rfl, rfl, rfl, rfl⟩

/-- C7: for any failure other than a missing dependency injected into
directory creation or either save, the run aborts at that point, the last
console line is the generic failure notice carrying the underlying error
description, and no exception escapes the program. -/
theorem failure_notice_no_propagation (env : Env) (fs0 : FS) (msg : String)
    (hp : env.pillowAvailable = true) (hf : firstFailure env = some msg) :
    (runScript env fs0).2 = none ∧
    (runScript env fs0).1.trace.getLast? =
      some (.print ("❌ 创建图标失败: " ++ msg)) := by
  obtain ⟨pa, me, ie, pe⟩ := env
  simp only at hp
  subst hp
  cases me with
  | some m =>
    simp only [firstFailure] at hf
    cases hf
    exact ⟨rfl, rfl⟩
  | none =>
    cases ie with
    | some m =>
      simp only [firstFailure] at hf
      cases hf
      exact ⟨rfl, rfl⟩
    | none =>
      cases pe with
      | some m =>
        simp only [firstFailure] at hf
        cases hf
        exact ⟨rfl, rfl⟩
      | none => simp [firstFailure] at hf

/-- Witness for C7: a run in which the ICO save fails with message
`Permission denied`. -/
theorem failure_notice_no_propagation_witness :
    (runScript ⟨true, none, some "Permission denied", none⟩ emptyFS).2 = none ∧
    (runScript ⟨true, none, some "Permission denied", none⟩ emptyFS).1.trace.getLast? =
      some (.print ("❌ 创建图标失败: " ++ "Permission denied")) :=
  failure_notice_no_propagation ⟨true, none, some "Permission denied", none⟩
    emptyFS "Permission denied" rfl rfl

/-- C8: on a successful run the ICO success notice is printed immediately
after the ICO save and before the PNG save; and when the PNG save fails the
trace still contains the ICO notice followed only by the failure notice,
while `icons/icon.ico` and the `icons` directory remain in place (no
rollback). -/
theorem ico_notice_before_png_write (msg : String) (fs0 : FS) :
    (runScript okEnv fs0).1.trace =
      [.makedirs "icons" true,
       .save "icons/icon.ico" (.icoFile image [(32, 32)]),
       .print "✅ 创建了 icons/icon.ico",
       .save "icons/icon.png" (.pngFile image),
       .print "✅ 创建了 icons/icon.png"] ∧
    (runScript (pngFailEnv msg) fs0).1.trace =
      [.makedirs "icons" true,
       .save "icons/icon.ico" (.icoFile image [(32, 32)]),
       .print "✅ 创建了 icons/icon.ico",
       .print ("❌ 创建图标失败: " ++ msg)] ∧
    ((runScript (pngFailEnv msg) fs0).1.fs.files.lookup "icons/icon.ico"
      = some (.icoFile image [(32, 32)])) ∧
    "icons" ∈ (runScript (pngFailEnv msg) fs0).1.fs.dirs := by
  have ha : ancestors "icons" = ["icons"] := by decide
  refine ⟨rfl, rfl, rfl, ?_⟩
  by_cases hm : "icons" ∈ fs0.dirs
  · exact List.mem_append_left _ hm
  · refine List.mem_append_right _ ?_
    show "icons" ∈ (ancestors "icons").filter (fun p => decide (p ∉ fs0.dirs))
    rw [ha]
    simp [hm]

/-- Witness for C8: the notice-ordering and no-rollback facts instantiated
at the failure message `disk full` and the empty initial filesystem. -/
theorem ico_notice_before_png_write_witness :
    (runScript okEnv emptyFS).1.trace =
      [.makedirs "icons" true,
       .save "icons/icon.ico" (.icoFile image [(32, 32)]),
       .print "✅ 创建了 icons/icon.ico",
       .save "icons/icon.png" (.pngFile image),
       .print "✅ 创建了 icons/icon.png"] ∧
    (runScript (pngFailEnv "disk full") emptyFS).1.trace =
      [.makedirs "icons" true,
       .save "icons/icon.ico" (.icoFile image [(32, 32)]),
       .print "✅ 创建了 icons/icon.ico",
       .print ("❌ 创建图标失败: " ++ "disk full")] ∧
    ((runScript (pngFailEnv "disk full") emptyFS).1.fs.files.lookup "icons/icon.ico"
      = some (.icoFile image [(32, 32)])) ∧
    "icons" ∈ (runScript (pngFailEnv "disk full") emptyFS).1.fs.dirs :=
  ico_notice_before_png_write "disk full" emptyFS

/-- C9: after a successful run `icons/icon.ico` holds an icon container
with exactly one 32×32 frame and `icons/icon.png` holds a raster encoding,
both of the same 32×32 RGBA canvas; under any encoder that produces
non-empty bytes, both files are non-empty. -/
theorem outputs_valid (env : Env) (fs0 : FS) (h : allSuccess env)
    (enc : FileData → List Nat) (henc : ∀ d, enc d ≠ []) :
    ((runScript env fs0).1.fs.files.lookup "icons/icon.ico"
      = some (.icoFile image [(32, 32)])) ∧
    ((runScript env fs0).1.fs.files.lookup "icons/icon.png"
      = some (.pngFile image)) ∧
    image.width = 32 ∧ image.height = 32 ∧ image.mode = "RGBA" ∧
    enc (.icoFile image [(32, 32)]) ≠ [] ∧ enc (.pngFile image) ≠ [] := by
  obtain ⟨pa, me, ie, pe⟩ := env
  obtain ⟨h1, h2, h3, h4⟩ := h
  simp only at h1 h2 h3 h4
  subst h1 h2 h3 h4
  exact ⟨rfl, rfl, rfl, rfl, rfl, henc _, henc _⟩

/-- Witness for C9: the theorem applied to the all-success environment, the
empty filesystem and the constant encoder producing one byte. -/
theorem outputs_valid_witness :
    ((runScript okEnv emptyFS).1.fs.files.lookup "icons/icon.ico"
      = some (.icoFile image [(32, 32)])) ∧
    ((runScript okEnv emptyFS).1.fs.files.lookup "icons/icon.png"
      = some (.pngFile image)) ∧
    image.width = 32 ∧ image.height = 32 ∧ image.mode = "RGBA" ∧
    (fun _ : FileData => [0]) (.icoFile image [(32, 32)]) ≠ [] ∧
    (fun _ : FileData => [0]) (.pngFile image) ≠ [] :=
  outputs_valid okEnv emptyFS ⟨rfl, rfl, rfl, rfl⟩ (fun _ => [0])
    (fun d => by simp)

end CreateIcon
